import Mathlib

/-!
Verification of the session / incremental-summary core of a multimodal
live-proxy server, shallowly embedded from
`server/core/incremental_summary.py`, `server/core/session.py` and
`server/core/tool_handler.py`.

Time (`time.time()` samples) is modelled as `Int`; the generation call and
the live-session send are modelled as external oracles supplied per call.
-/

namespace Proxy

/-- Python `str.strip()`: drop leading and trailing whitespace. -/
def strip (s : String) : String :=
  String.mk ((s.data.dropWhile Char.isWhitespace).reverse.dropWhile Char.isWhitespace).reverse

/-- One text part of a client-content message (`{"text": ...}`). -/
structure MsgPart where
  text : String
deriving DecidableEq, Repr

/-- One turn of a client-content message (`{"role": ..., "parts": [...]}`). -/
structure MsgTurn where
  role : String
  parts : List MsgPart
deriving DecidableEq, Repr

/-- A `client_content` payload as built in `_update_summary_locked` and
`inject_summary_for_questions`: a list of turns plus the `turn_complete`
flag.  (The payload has no other fields; in particular no part-id field.) -/
structure ClientContent where
  turns : List MsgTurn
  turn_complete : Bool
deriving DecidableEq, Repr

/-- Mutable state of `IncrementalSummaryManager` (its `__init__`, lines
37-44): `_last_update_ts`, `running_summary`, `transcript_buffer`,
`summary_part_id`. -/
structure ManagerState where
  last_update_ts : Int
  running_summary : String
  transcript_buffer : List String
  summary_part_id : String
deriving DecidableEq, Repr

/-- `IncrementalSummaryManager.__init__`: ts `0.0`, empty summary, empty
buffer, stable part id `"running_summary"`. -/
def managerInit : ManagerState :=
  { last_update_ts := 0
    running_summary := ""
    transcript_buffer := []
    summary_part_id := "running_summary" }

/-- `add_transcript` (lines 46-49): no-op on falsy (empty) text, else append. -/
def add_transcript (text : String) (s : ManagerState) : ManagerState :=
  if text = "" then s
  else { s with transcript_buffer := s.transcript_buffer ++ [text] }

/-- `get_summary` (lines 51-52). -/
def get_summary (s : ManagerState) : String :=
  s.running_summary

/-- The "new chunk" built from the buffer (line 87):
`"\n".join(self.transcript_buffer).strip()`. -/
def new_chunk_of (buffer : List String) : String :=
  strip (String.intercalate "\n" buffer)

/-- The summarization instruction (lines 90-92): the compaction prompt,
extended with the existing summary when it is non-empty. -/
def build_instruction (prompt running_summary : String) : String :=
  if running_summary = "" then prompt
  else prompt ++ "\n\nExisting summary to refine (merge and compress further):\n" ++ running_summary

/-- The full one-shot prompt (line 94). -/
def build_user_text (prompt running_summary chunk : String) : String :=
  build_instruction prompt running_summary ++ "\n\nNew transcript chunk to incorporate:\n" ++ chunk

/-- Outcome of the non-streaming text-generation call (lines 97-118),
supplied as an oracle: an exception, or a response whose `.text` attribute
is an optional string. -/
abbrev GenOutcome : Type := Except Unit (Option String)

/-- `summary_text` extraction (line 119 and the `except` arm, lines
120-122): an exception yields `""`, otherwise
`(getattr(resp, 'text', None) or "").strip()`. -/
def summary_text_of : GenOutcome → String
  | Except.error _ => ""
  | Except.ok t => strip (t.getD "")

/-- The compaction message pushed on success (lines 133-149): one user
turn with the fixed marker part and the summary part, `turn_complete = False`. -/
def summary_update_msg (summary : String) : ClientContent :=
  { turns := [{ role := "user"
                parts := [{ text := "[Running summary updated]" }, { text := summary }] }]
    turn_complete := false }

/-- Result of one execution of `_update_summary_locked`: the state and the
messages delivered to the live session, with `raised` marking an escaped
exception (the `session.send` call is outside any `try`). -/
inductive CycleResult where
  | returned (s : ManagerState) (sent : List ClientContent)
  | raised (s : ManagerState) (sent : List ClientContent)
deriving DecidableEq, Repr

/-- `_update_summary_locked` (lines 74-149).  `hasSession` is whether
`session_state.genai_session` is set; `gen` is the generation oracle;
`sendOk` is whether the live-session `send` succeeds (when reached). -/
def update_summary_locked (hasSession : Bool) (gen : GenOutcome) (sendOk : Bool)
    (s : ManagerState) : CycleResult :=
  if ¬hasSession then CycleResult.returned s []
  else if summary_text_of gen = "" then
    CycleResult.returned { s with transcript_buffer := [] } []
  else if sendOk then
    CycleResult.returned
      { s with transcript_buffer := [], running_summary := summary_text_of gen }
      [summary_update_msg (summary_text_of gen)]
  else
    CycleResult.raised
      { s with transcript_buffer := [], running_summary := summary_text_of gen } []

/-- The manager state left behind by a cycle, whether it returned or raised. -/
def cycle_state : CycleResult → ManagerState
  | CycleResult.returned s _ => s
  | CycleResult.raised s _ => s

/-- The messages a cycle delivered to the live session. -/
def cycle_sent : CycleResult → List ClientContent
  | CycleResult.returned _ sent => sent
  | CycleResult.raised _ sent => sent

/-- The external inputs consumed by one `maybe_update` call: the three
`time.time()` samples (line 57, line 65, line 70), whether a live session
is attached, the generation oracle and the send oracle. -/
structure CallInput where
  tPre : Int
  tLock : Int
  tDone : Int
  hasSession : Bool
  gen : GenOutcome
  sendOk : Bool

/-- Result of one `maybe_update` call: the new state, how many times
`_update_summary_locked` was entered (0 or 1), and the messages delivered
to the live session. -/
structure StepResult where
  state : ManagerState
  cycles : Nat
  sent : List ClientContent
deriving DecidableEq, Repr

/-- The body of `maybe_update` once the lock is held (lines 63-72), on
state `sLock`: re-check the elapsed time, then run the cycle; the
timestamp is advanced to `tDone` exactly when the cycle returns without
raising (line 70); a raised exception is caught (lines 71-72). -/
def locked_section (interval : Int) (c : CallInput) (sLock : ManagerState) : StepResult :=
  if c.tLock - sLock.last_update_ts < interval then ⟨sLock, 0, []⟩
  else
    match update_summary_locked c.hasSession c.gen c.sendOk sLock with
    | CycleResult.returned s sent => ⟨{ s with last_update_ts := c.tDone }, 1, sent⟩
    | CycleResult.raised s sent => ⟨s, 1, sent⟩

/-- `maybe_update` (lines 54-72) as run by a single caller: the three
pre-checks (feature flag, elapsed time, non-empty buffer) read the same
state the lock is then acquired on. -/
def maybe_update (enabled : Bool) (interval : Int) (c : CallInput)
    (s : ManagerState) : StepResult :=
  if ¬enabled then ⟨s, 0, []⟩
  else if c.tPre - s.last_update_ts < interval then ⟨s, 0, []⟩
  else if s.transcript_buffer = [] then ⟨s, 0, []⟩
  else locked_section interval c s

/-- `maybe_update` as executed by the second of two racing callers: its
pre-checks (lines 55-61) read shared state `sPre` sampled before the other
caller's cycle ran, while the under-lock re-check and cycle (lines 63-72)
run on the state `sLock` left by the caller that held the lock first. -/
def maybe_update_racing (enabled : Bool) (interval : Int) (c : CallInput)
    (sPre sLock : ManagerState) : StepResult :=
  if ¬enabled then ⟨sLock, 0, []⟩
  else if c.tPre - sPre.last_update_ts < interval then ⟨sLock, 0, []⟩
  else if sPre.transcript_buffer = [] then ⟨sLock, 0, []⟩
  else locked_section interval c sLock

/-- A sequence of non-overlapping `maybe_update` calls, accumulating the
number of compaction cycles entered. -/
def run_calls (enabled : Bool) (interval : Int) (s : ManagerState) :
    List CallInput → ManagerState × Nat
  | [] => (s, 0)
  | c :: cs =>
    let r := maybe_update enabled interval c s
    let rest := run_calls enabled interval r.state cs
    (rest.1, r.cycles + rest.2)

/-- The question-priming prompt built in `inject_summary_for_questions`
(lines 156-160). -/
def questions_prompt (running_summary : String) : String :=
  "Using the following compact summary of the presentation so far, " ++
  "ask 3-5 thoughtful, specific questions that probe understanding, evidence, and implications. " ++
  "Keep them concise.\n\nSummary:\n" ++ running_summary

/-- `inject_summary_for_questions` (lines 151-173): no-op when there is no
live session or no summary yet; otherwise send one user turn with
`turn_complete = True`. -/
def inject_summary_for_questions (hasSession : Bool) (s : ManagerState) :
    List ClientContent :=
  if ¬hasSession ∨ s.running_summary = "" then []
  else
    [{ turns := [{ role := "user", parts := [{ text := questions_prompt s.running_summary }] }]
       turn_complete := true }]

/-- `SessionState` (session.py lines 9-17), with its dataclass defaults;
the loosely-typed handles are modelled by their presence. -/
structure SessionState where
  is_receiving_response : Bool := false
  interrupted : Bool := false
  current_tool_execution : Option Unit := none
  current_audio_stream : Option Unit := none
  genai_session : Option Unit := none
  received_model_response : Bool := false
deriving DecidableEq, Repr

/-- The global `active_sessions` dict, modelled as a lookup map. -/
abbrev Registry : Type := String → Option SessionState

/-- `create_session` (session.py lines 22-26): build a fresh
`SessionState()` and store it at `session_id`, overwriting any existing
entry (plain dict assignment). -/
def create_session (reg : Registry) (session_id : String) :
    SessionState × Registry :=
  let session : SessionState := {}
  (session, fun k => if k = session_id then some session else reg k)

/-- `get_session` (session.py lines 28-30). -/
def get_session (reg : Registry) (session_id : String) : Option SessionState :=
  reg session_id

/-- `remove_session` (session.py lines 32-35). -/
def remove_session (reg : Registry) (session_id : String) : Registry :=
  fun k => if k = session_id then none else reg k

/-- Modelled from the spec: the server wiring that creates the
Incremental Summary State "alongside" each session lives in the server
entry point, which is not among the provided source files; per the spec
(§3, §4.1) `create(id)` "allocates and stores new Session + Incremental
Summary State", deterministically overwriting per `create_session`'s dict
assignment.  The summary state is `IncrementalSummaryManager.__init__`. -/
def create_session_with_summary (reg : String → Option (SessionState × ManagerState))
    (session_id : String) :
    (SessionState × ManagerState) × (String → Option (SessionState × ManagerState)) :=
  let entry : SessionState × ManagerState := ({}, managerInit)
  (entry, fun k => if k = session_id then some entry else reg k)

/-- An HTTP response as observed by `execute_tool` (tool_handler.py lines
29-43): status, body text, and the outcome of `response.json()` (parsed
payload, or the exception's string). -/
structure HttpResponse where
  status : Nat
  body : String
  parsed : Except String String
deriving Repr

/-- What the network does for the GET issued by `execute_tool`:
an `aiohttp.ClientError` (lines 45-47), some other exception from the
request machinery (lines 48-50), or a response. -/
inductive NetOutcome where
  | clientError (msg : String)
  | otherError (msg : String)
  | response (resp : HttpResponse)
deriving Repr

/-- What `execute_tool` returns: always a dict — either the parsed JSON
body or `{"error": ...}`; it never raises. -/
inductive ToolResult where
  | json (payload : String)
  | error (msg : String)
deriving DecidableEq, Repr

/-- `execute_tool` (tool_handler.py lines 13-50).  `cloudFunctions` models
the `CLOUD_FUNCTIONS` name→URL table; `net` is the network oracle (only
consulted when a URL is found).  The second component records whether a
network call was made. -/
def execute_tool (cloudFunctions : String → Option String) (net : NetOutcome)
    (tool_name : String) : ToolResult × Bool :=
  match cloudFunctions tool_name with
  | none => (ToolResult.error ("Unknown tool: " ++ tool_name), false)
  | some _ =>
    match net with
    | NetOutcome.clientError e =>
      (ToolResult.error ("Failed to call cloud function: " ++ e), true)
    | NetOutcome.otherError e =>
      (ToolResult.error ("Tool execution failed: " ++ e), true)
    | NetOutcome.response resp =>
      if resp.status ≠ 200 then
        (ToolResult.error ("Cloud function returned status " ++ toString resp.status), true)
      else
        match resp.parsed with
        | Except.error e =>
          (ToolResult.error ("Invalid JSON response from cloud function: " ++ e), true)
        | Except.ok payload => (ToolResult.json payload, true)

/-! ## Helper lemmas -/

/-- A `maybe_update` call that fails any of the three pre-checks is a
complete no-op: it returns with the state unchanged, enters no cycle and
sends nothing. -/
theorem maybe_update_blocked (enabled : Bool) (interval : Int) (c : CallInput)
    (s : ManagerState)
    (h : enabled = false ∨ c.tPre - s.last_update_ts < interval ∨
      s.transcript_buffer = []) :
    maybe_update enabled interval c s = ⟨s, 0, []⟩ := by
  rcases h with h | h | h
  · simp [maybe_update, h]
  · simp [maybe_update, h]
  · unfold maybe_update
    split
    · rfl
    · split
      · rfl
      · simp [h]

/-- A sequence of calls all of which fail a pre-check leaves the state
unchanged and enters no cycle. -/
theorem run_calls_blocked (enabled : Bool) (interval : Int) (s : ManagerState)
    (cs : List CallInput)
    (h : ∀ c ∈ cs, enabled = false ∨ c.tPre - s.last_update_ts < interval ∨
      s.transcript_buffer = []) :
    run_calls enabled interval s cs = (s, 0) := by
  induction cs with
  | nil => rfl
  | cons c cs ih =>
    rw [run_calls, maybe_update_blocked enabled interval c s (h c (by simp))]
    rw [ih (fun d hd => h d (by simp [hd]))]
    rfl

/-- Each `maybe_update` call enters `_update_summary_locked` at most once. -/
theorem maybe_update_cycles_le_one (enabled : Bool) (interval : Int)
    (c : CallInput) (s : ManagerState) :
    (maybe_update enabled interval c s).cycles ≤ 1 := by
  unfold maybe_update locked_section
  split
  · simp
  · split
    · simp
    · split
      · simp
      · split
        · simp
        · split <;> simp

/-- Any `maybe_update` call is a no-op, or ends with an empty transcript
buffer, or ends with the timestamp advanced to the call's completion time. -/
theorem maybe_update_result (enabled : Bool) (interval : Int) (c : CallInput)
    (s : ManagerState) :
    maybe_update enabled interval c s = ⟨s, 0, []⟩ ∨
    (maybe_update enabled interval c s).state.transcript_buffer = [] ∨
    (maybe_update enabled interval c s).state.last_update_ts = c.tDone := by
  by_cases he : enabled = true
  case neg =>
    exact Or.inl (maybe_update_blocked _ _ _ _ (Or.inl (by simpa using he)))
  by_cases h1 : c.tPre - s.last_update_ts < interval
  · exact Or.inl (maybe_update_blocked _ _ _ _ (Or.inr (Or.inl h1)))
  by_cases h2 : s.transcript_buffer = []
  · exact Or.inl (maybe_update_blocked _ _ _ _ (Or.inr (Or.inr h2)))
  by_cases h3 : c.tLock - s.last_update_ts < interval
  · exact Or.inl (by simp [maybe_update, locked_section, he, h1, h2, h3])
  by_cases hs : c.hasSession = true
  case neg =>
    refine Or.inr (Or.inr ?_)
    simp [maybe_update, locked_section, update_summary_locked, he, h1, h2, h3, hs]
  by_cases ht : summary_text_of c.gen = ""
  · refine Or.inr (Or.inl ?_)
    simp [maybe_update, locked_section, update_summary_locked, he, h1, h2, h3, hs, ht]
  by_cases hk : c.sendOk = true
  · refine Or.inr (Or.inl ?_)
    simp [maybe_update, locked_section, update_summary_locked, he, h1, h2, h3, hs, ht, hk]
  · refine Or.inr (Or.inl ?_)
    simp [maybe_update, locked_section, update_summary_locked, he, h1, h2, h3, hs, ht, hk]

/-- After any sequence of calls whose pre-check times all lie within less
than the interval of each other, at most one compaction cycle is entered. -/
theorem run_calls_at_most_one (enabled : Bool) (interval : Int) (s : ManagerState)
    (cs : List CallInput)
    (hmono : ∀ c ∈ cs, c.tPre ≤ c.tDone)
    (hwin : ∀ c ∈ cs, ∀ d ∈ cs, c.tPre - d.tPre < interval) :
    (run_calls enabled interval s cs).2 ≤ 1 := by
  induction cs generalizing s with
  | nil => simp [run_calls]
  | cons c cs ih =>
    rcases maybe_update_result enabled interval c s with hnoop | hbuf | hts
    · have := ih s (fun d hd => hmono d (by simp [hd]))
        (fun d hd e he => hwin d (by simp [hd]) e (by simp [he]))
      simp only [run_calls, hnoop]
      simpa using this
    · have hrest := run_calls_blocked enabled interval
        (maybe_update enabled interval c s).state cs
        (fun d _ => Or.inr (Or.inr hbuf))
      simp only [run_calls, hrest]
      simpa using maybe_update_cycles_le_one enabled interval c s
    · have hrest := run_calls_blocked enabled interval
        (maybe_update enabled interval c s).state cs
        (fun d hd => by
          refine Or.inr (Or.inl ?_)
          rw [hts]
          have h1 : d.tPre - c.tPre < interval := hwin d (by simp [hd]) c (by simp)
          have h2 : c.tPre ≤ c.tDone := hmono c (by simp)
          omega)
      simp only [run_calls, hrest]
      simpa using maybe_update_cycles_le_one enabled interval c s

/-- Folding `add_transcript` appends exactly the non-empty fragments, in
arrival order. -/
theorem add_transcript_foldl (frags : List String) (s : ManagerState) :
    (frags.foldl (fun acc t => add_transcript t acc) s).transcript_buffer =
      s.transcript_buffer ++ frags.filter (fun t => !(t == "")) := by
  induction frags generalizing s with
  | nil => simp
  | cons t ts ih =>
    simp only [List.foldl]
    by_cases h : t = ""
    · subst h
      rw [show add_transcript "" s = s by simp [add_transcript]]
      rw [ih]
      simp
    · rw [show add_transcript t s =
          { s with transcript_buffer := s.transcript_buffer ++ [t] } by
        simp [add_transcript, h]]
      rw [ih]
      simp [List.filter_cons, h, List.append_assoc]

/-! ## Claims -/

/-- C1: after a compaction cycle in which the generation call raised, or
returned a response with no text, or returned empty text, the running
summary is unchanged, the transcript buffer is empty (the snapshotted
fragments are discarded, not restored), and nothing was sent — for every
prior state, whenever a live session is attached. -/
theorem C1_failed_generation_lossy (s : ManagerState) (gen : GenOutcome)
    (sendOk : Bool)
    (hgen : gen = Except.error () ∨ gen = Except.ok none ∨ gen = Except.ok (some "")) :
    update_summary_locked true gen sendOk s =
      CycleResult.returned { s with transcript_buffer := [] } [] := by
  have ht : summary_text_of gen = "" := by
    rcases hgen with h | h | h <;> subst h <;> rfl
  simp [update_summary_locked, ht]

theorem C1_failed_generation_lossy_witness :
    update_summary_locked true (Except.error ()) true
      { last_update_ts := 5, running_summary := "old summary",
        transcript_buffer := ["frag one", "frag two"],
        summary_part_id := "running_summary" } =
      CycleResult.returned
        { last_update_ts := 5, running_summary := "old summary",
          transcript_buffer := [], summary_part_id := "running_summary" } [] :=
  C1_failed_generation_lossy _ _ _ (Or.inl rfl)

/-- C2: a `maybe_update` call for which the feature flag is off, or the
elapsed time since the last update is below the interval, or the buffer is
empty, is a complete no-op; and any sequence of `maybe_update` calls whose
times all lie within less than the interval of each other enters at most
one compaction cycle. -/
theorem C2_precheck_noop_and_throttle (enabled : Bool) (interval : Int) :
    (∀ c s, (enabled = false ∨ c.tPre - s.last_update_ts < interval ∨
        s.transcript_buffer = []) →
      maybe_update enabled interval c s = ⟨s, 0, []⟩) ∧
    (∀ s cs, (∀ c ∈ cs, c.tPre ≤ c.tDone) →
      (∀ c ∈ cs, ∀ d ∈ cs, c.tPre - d.tPre < interval) →
      (run_calls enabled interval s cs).2 ≤ 1) :=
  ⟨fun c s h => maybe_update_blocked enabled interval c s h,
   fun s cs h1 h2 => run_calls_at_most_one enabled interval s cs h1 h2⟩

theorem C2_precheck_noop_and_throttle_witness :
    maybe_update true 60 ⟨30, 30, 30, true, Except.ok (some "t"), true⟩ managerInit =
      ⟨managerInit, 0, []⟩ ∧
    (run_calls true 60 { managerInit with transcript_buffer := ["a"] }
      [⟨100, 100, 101, true, Except.ok (some "S1"), true⟩,
       ⟨120, 120, 121, true, Except.ok (some "S2"), true⟩]).2 ≤ 1 :=
  ⟨(C2_precheck_noop_and_throttle true 60).1 _ _ (Or.inr (Or.inl (by decide))),
   (C2_precheck_noop_and_throttle true 60).2 _ _ (by decide) (by decide)⟩

/-- C3 (counterexample to the claim as stated): a cycle whose generation
call raises still advances `last_update_ts` — here from 0 to the call's
completion time 100 — because `maybe_update` stamps the time whenever
`_update_summary_locked` returns without raising, successful or not. -/
theorem C3_counterexample :
    summary_text_of (Except.error ()) = "" ∧
    (maybe_update true 60 ⟨100, 100, 100, true, Except.error (), true⟩
      { last_update_ts := 0, running_summary := "prior",
        transcript_buffer := ["frag"],
        summary_part_id := "running_summary" }).state.last_update_ts = 100 := by
  decide

/-- C3 (amended): on a call that passes all guards, `last_update_ts` is
advanced to the cycle's completion time whenever the cycle completes
without raising — including cycles aborted by a failed or empty generation
— and is left unchanged exactly when the cycle raises (live-session send
failure); `running_summary` is replaced exactly when the generation
produced non-empty (stripped) text. -/
theorem C3_timestamp_on_cycle_completion (interval : Int) (c : CallInput)
    (s : ManagerState)
    (h1 : ¬ (c.tPre - s.last_update_ts < interval))
    (h2 : s.transcript_buffer ≠ [])
    (h3 : ¬ (c.tLock - s.last_update_ts < interval)) :
    (maybe_update true interval c s).state.last_update_ts =
      (if c.hasSession = true ∧ summary_text_of c.gen ≠ "" ∧ c.sendOk = false
       then s.last_update_ts else c.tDone) ∧
    (maybe_update true interval c s).state.running_summary =
      (if c.hasSession = true ∧ summary_text_of c.gen ≠ ""
       then summary_text_of c.gen else s.running_summary) := by
  by_cases hs : c.hasSession = true
  · by_cases ht : summary_text_of c.gen = ""
    · simp [maybe_update, locked_section, update_summary_locked, h1, h2, h3, hs, ht]
    · by_cases hk : c.sendOk = true
      · simp [maybe_update, locked_section, update_summary_locked, h1, h2, h3, hs, ht, hk]
      · simp [maybe_update, locked_section, update_summary_locked, h1, h2, h3, hs, ht, hk]
  · simp [maybe_update, locked_section, update_summary_locked, h1, h2, h3, hs]

theorem C3_timestamp_on_cycle_completion_witness :
    (maybe_update true 60 ⟨100, 100, 100, true, Except.ok (some "new text"), true⟩
      { last_update_ts := 0, running_summary := "prior",
        transcript_buffer := ["frag"],
        summary_part_id := "running_summary" }).state.last_update_ts = 100 := by
  have h := C3_timestamp_on_cycle_completion 60
    ⟨100, 100, 100, true, Except.ok (some "new text"), true⟩
    { last_update_ts := 0, running_summary := "prior",
      transcript_buffer := ["frag"], summary_part_id := "running_summary" }
    (by decide) (by decide) (by decide)
  simpa [summary_text_of, strip] using h.1

/-- C4 (counterexample to the claim as stated): the generation call
returns the non-empty text `" x "`, yet `get_summary` afterwards is not
that text — the code stores the stripped text `"x"`. -/
theorem C4_counterexample :
    (" x " : String) ≠ "" ∧
    get_summary (cycle_state (update_summary_locked true (Except.ok (some " x ")) true
      { last_update_ts := 0, running_summary := "",
        transcript_buffer := ["a"],
        summary_part_id := "running_summary" })) ≠ " x " := by
  decide

/-- C4 (amended): after a compaction cycle in which the generation call
returns text that is non-empty after stripping whitespace, `get_summary`
returns exactly that stripped text and the transcript buffer is empty —
for every prior state with a non-empty buffer and a live session attached,
whether or not the follow-up send succeeds. -/
theorem C4_success_updates_summary (s : ManagerState) (gen : GenOutcome)
    (sendOk : Bool)
    (_hbuf : s.transcript_buffer ≠ [])
    (ht : summary_text_of gen ≠ "") :
    get_summary (cycle_state (update_summary_locked true gen sendOk s)) =
      summary_text_of gen ∧
    (cycle_state (update_summary_locked true gen sendOk s)).transcript_buffer = [] := by
  cases sendOk <;>
    simp [update_summary_locked, cycle_state, get_summary, ht]

theorem C4_success_updates_summary_witness :
    (["Slide 1 covers X.", "Slide 2 covers Y."] : List String) ≠ [] ∧
    summary_text_of (Except.ok (some "Summary: X, Y.")) ≠ "" ∧
    (get_summary (cycle_state (update_summary_locked true
        (Except.ok (some "Summary: X, Y.")) true
        { last_update_ts := 0, running_summary := "",
          transcript_buffer := ["Slide 1 covers X.", "Slide 2 covers Y."],
          summary_part_id := "running_summary" })) =
      summary_text_of (Except.ok (some "Summary: X, Y.")) ∧
    (cycle_state (update_summary_locked true (Except.ok (some "Summary: X, Y.")) true
        { last_update_ts := 0, running_summary := "",
          transcript_buffer := ["Slide 1 covers X.", "Slide 2 covers Y."],
          summary_part_id := "running_summary" })).transcript_buffer = []) :=
  ⟨by decide, by decide,
   C4_success_updates_summary _ _ true (by decide) (by decide)⟩

/-- C5 (counterexample to the claim as stated): the chunk fed into a
compaction is not the plain join of the buffered fragments — the code
strips surrounding whitespace, so buffering the single fragment `" a"`
yields the chunk `"a"`. -/
theorem C5_counterexample :
    (add_transcript " a" managerInit).transcript_buffer = [" a"] ∧
    new_chunk_of (add_transcript " a" managerInit).transcript_buffer ≠
      String.intercalate "\n" [" a"] := by
  decide

/-- C5 (amended): between two compactions, each `add_transcript` call with
non-empty text appends exactly that fragment, each call with empty text is
a no-op, and the chunk fed into the next compaction equals the
newline-join of the buffered (non-empty) fragments in arrival order,
stripped of leading and trailing whitespace. -/
theorem C5_buffer_accumulation (frags : List String) (s : ManagerState)
    (hbuf : s.transcript_buffer = []) :
    (∀ t s₂, t ≠ "" →
      (add_transcript t s₂).transcript_buffer = s₂.transcript_buffer ++ [t]) ∧
    (∀ s₂, add_transcript "" s₂ = s₂) ∧
    (frags.foldl (fun acc t => add_transcript t acc) s).transcript_buffer =
      frags.filter (fun t => !(t == "")) ∧
    new_chunk_of (frags.foldl (fun acc t => add_transcript t acc) s).transcript_buffer =
      strip (String.intercalate "\n" (frags.filter (fun t => !(t == "")))) := by
  refine ⟨fun t s₂ ht => by simp [add_transcript, ht],
          fun s₂ => by simp [add_transcript], ?_, ?_⟩
  · rw [add_transcript_foldl, hbuf]
    rfl
  · rw [new_chunk_of, add_transcript_foldl, hbuf]
    rfl

theorem C5_buffer_accumulation_witness :
    managerInit.transcript_buffer = [] ∧
    (["Slide 1 covers X.", "", "Slide 2 covers Y."].foldl
        (fun acc t => add_transcript t acc) managerInit).transcript_buffer =
      ["Slide 1 covers X.", "", "Slide 2 covers Y."].filter (fun t => !(t == "")) :=
  ⟨rfl, (C5_buffer_accumulation _ managerInit rfl).2.2.1⟩

set_option maxRecDepth 4000 in
/-- C6 (code evaluation at the failing input): a successful compaction
sends exactly one message of two parts — the fixed marker and the new
summary — with `turn_complete = false`, and the question injection sends
with `turn_complete = true`; but no part of any sent message carries the
stored `summary_part_id` (`"running_summary"`): the payload has no
id field at all, contradicting the claimed stable-id addressing. -/
theorem C6_message_shape_eval :
    cycle_sent (update_summary_locked true (Except.ok (some "Summary: X, Y.")) true
      { last_update_ts := 0, running_summary := "",
        transcript_buffer := ["Slide 1 covers X.", "Slide 2 covers Y."],
        summary_part_id := "running_summary" }) =
      [{ turns := [{ role := "user"
                     parts := [{ text := "[Running summary updated]" },
                               { text := "Summary: X, Y." }] }]
         turn_complete := false }] ∧
    (∀ m ∈ cycle_sent (update_summary_locked true (Except.ok (some "Summary: X, Y.")) true
        { last_update_ts := 0, running_summary := "",
          transcript_buffer := ["Slide 1 covers X.", "Slide 2 covers Y."],
          summary_part_id := "running_summary" }),
      ∀ u ∈ m.turns, ∀ p ∈ u.parts, p.text ≠ "running_summary") ∧
    inject_summary_for_questions true
      { last_update_ts := 0, running_summary := "Summary: X, Y.",
        transcript_buffer := [], summary_part_id := "running_summary" } =
      [{ turns := [{ role := "user"
                     parts := [{ text := questions_prompt "Summary: X, Y." }] }]
         turn_complete := true }] := by
  decide

/-- C7: `execute_tool` is total — modelled by returning a `ToolResult` in
every case — and each failure mode yields the documented `error` object:
unknown tool (with no network call), non-200 status, network error,
malformed JSON. -/
theorem C7_execute_tool_error_shapes (cloudFunctions : String → Option String)
    (net : NetOutcome) (tool_name : String) :
    (cloudFunctions tool_name = none →
      execute_tool cloudFunctions net tool_name =
        (ToolResult.error ("Unknown tool: " ++ tool_name), false)) ∧
    (∀ resp, cloudFunctions tool_name ≠ none → net = NetOutcome.response resp →
      resp.status ≠ 200 →
      execute_tool cloudFunctions net tool_name =
        (ToolResult.error ("Cloud function returned status " ++ toString resp.status),
          true)) ∧
    (∀ e, cloudFunctions tool_name ≠ none → net = NetOutcome.clientError e →
      ∃ msg, execute_tool cloudFunctions net tool_name = (ToolResult.error msg, true)) ∧
    (∀ resp e, cloudFunctions tool_name ≠ none → net = NetOutcome.response resp →
      resp.status = 200 → resp.parsed = Except.error e →
      ∃ msg, execute_tool cloudFunctions net tool_name = (ToolResult.error msg, true)) := by
  refine ⟨fun h => by simp [execute_tool, h], ?_, ?_, ?_⟩
  · intro resp hcf hnet hst
    obtain ⟨url, hurl⟩ := Option.ne_none_iff_exists'.mp hcf
    subst hnet
    simp [execute_tool, hurl, hst]
  · intro e hcf hnet
    obtain ⟨url, hurl⟩ := Option.ne_none_iff_exists'.mp hcf
    subst hnet
    exact ⟨"Failed to call cloud function: " ++ e, by simp [execute_tool, hurl]⟩
  · intro resp e hcf hnet hst hparse
    obtain ⟨url, hurl⟩ := Option.ne_none_iff_exists'.mp hcf
    subst hnet
    exact ⟨"Invalid JSON response from cloud function: " ++ e,
      by simp [execute_tool, hurl, hst, hparse]⟩

theorem C7_execute_tool_error_shapes_witness :
    execute_tool (fun _ => none) (NetOutcome.otherError "boom") "foo" =
      (ToolResult.error ("Unknown tool: " ++ "foo"), false) ∧
    execute_tool (fun _ => some "https://fn.example")
      (NetOutcome.response ⟨500, "oops", Except.error "parse"⟩) "get_weather" =
      (ToolResult.error ("Cloud function returned status " ++ toString (500 : Nat)),
        true) :=
  ⟨(C7_execute_tool_error_shapes _ _ _).1 rfl,
   (C7_execute_tool_error_shapes _ _ _).2.1 ⟨500, "oops", Except.error "parse"⟩
     (by simp) rfl (by decide)⟩

/-- C8: `create` stores a fresh session together with a fresh summary
state; the stored entry is independent of what the registry previously
held at that id — the implementation deterministically overwrites — and
other ids are untouched; the fresh summary state is the manager's initial
state. -/
theorem C8_create_session_deterministic_overwrite
    (reg : String → Option (SessionState × ManagerState)) (session_id : String) :
    (create_session_with_summary reg session_id).2 session_id =
      some ({}, managerInit) ∧
    (∀ reg₂, (create_session_with_summary reg session_id).1 =
      (create_session_with_summary reg₂ session_id).1) ∧
    (∀ k, k ≠ session_id →
      (create_session_with_summary reg session_id).2 k = reg k) ∧
    (∀ regS : Registry,
      (create_session regS session_id).2 session_id =
        some (create_session regS session_id).1) ∧
    managerInit =
      { last_update_ts := 0, running_summary := "", transcript_buffer := [],
        summary_part_id := "running_summary" } :=
  ⟨by simp [create_session_with_summary],
   fun _ => rfl,
   fun k hk => by simp [create_session_with_summary, hk],
   fun regS => by simp [create_session],
   rfl⟩

theorem C8_create_session_deterministic_overwrite_witness :
    (create_session_with_summary
      (fun k => if k = "s1" then some ({ interrupted := true }, managerInit) else none)
      "s1").2 "s1" = some ({}, managerInit) ∧
    (create_session_with_summary
      (fun k => if k = "s1" then some ({ interrupted := true }, managerInit) else none)
      "s1").2 "s2" = none :=
  ⟨(C8_create_session_deterministic_overwrite _ "s1").1,
   by
    have h := (C8_create_session_deterministic_overwrite
      (fun k => if k = "s1" then some ({ interrupted := true }, managerInit) else none)
      "s1").2.2.1 "s2" (by decide)
    rw [h]
    decide⟩

/-- C9 (counterexample to the claim as stated): two racing `maybe_update`
invocations do not always result in exactly one compaction with an
unaffected loser.  Here the winner's live-session send raises, so the
timestamp is never stamped; the loser's under-lock re-check then passes
against the stale timestamp and it runs a full second compaction — both
invocations enter a cycle, and the loser replaces the running summary and
sends a message, changing the state the winner left. -/
theorem C9_counterexample :
    let s₀ : ManagerState :=
      { last_update_ts := 0, running_summary := "", transcript_buffer := ["x"],
        summary_part_id := "running_summary" }
    let winner :=
      maybe_update true 60 ⟨100, 100, 100, true, Except.ok (some "S1"), false⟩ s₀
    let loser :=
      maybe_update_racing true 60 ⟨100, 101, 101, true, Except.ok (some "S2"), true⟩
        s₀ winner.state
    winner.cycles = 1 ∧ loser.cycles = 1 ∧
    loser.state.running_summary = "S2" ∧ loser.state ≠ winner.state ∧
    loser.sent ≠ [] := by
  decide

/-- C9 (amended): when two `maybe_update` invocations race — both sample
their pre-checks on the same starting state, one wins the lock, its cycle
completes without raising (its live-session send succeeds), and the other
re-checks under the lock within the interval of the winner's completion —
exactly one compaction cycle executes, and the losing invocation returns
without running a cycle, without sending anything and without changing
the state the winner left. -/
theorem C9_concurrent_single_cycle (interval : Int) (s : ManagerState)
    (a b : CallInput)
    (h1 : ¬ (a.tPre - s.last_update_ts < interval))
    (h2 : s.transcript_buffer ≠ [])
    (h3 : ¬ (a.tLock - s.last_update_ts < interval))
    (h4 : a.sendOk = true)
    (h5 : b.tLock - a.tDone < interval) :
    (maybe_update true interval a s).cycles = 1 ∧
    maybe_update_racing true interval b s (maybe_update true interval a s).state =
      ⟨(maybe_update true interval a s).state, 0, []⟩ := by
  have hts : (maybe_update true interval a s).state.last_update_ts = a.tDone ∧
      (maybe_update true interval a s).cycles = 1 := by
    by_cases hs : a.hasSession = true
    · by_cases ht : summary_text_of a.gen = ""
      · constructor <;>
          simp [maybe_update, locked_section, update_summary_locked, h1, h2, h3, hs, ht]
      · constructor <;>
          simp [maybe_update, locked_section, update_summary_locked, h1, h2, h3, hs, ht, h4]
    · constructor <;>
        simp [maybe_update, locked_section, update_summary_locked, h1, h2, h3, hs]
  refine ⟨hts.2, ?_⟩
  have hlock : b.tLock - (maybe_update true interval a s).state.last_update_ts <
      interval := by
    rw [hts.1]
    exact h5
  by_cases hb1 : b.tPre - s.last_update_ts < interval
  · simp [maybe_update_racing, hb1]
  · by_cases hb2 : s.transcript_buffer = []
    · simp [maybe_update_racing, hb1, hb2]
    · simp [maybe_update_racing, locked_section, hb1, hb2, hlock]

theorem C9_concurrent_single_cycle_witness :
    (maybe_update true 60 ⟨100, 100, 100, true, Except.ok (some "S"), true⟩
      { last_update_ts := 0, running_summary := "", transcript_buffer := ["x"],
        summary_part_id := "running_summary" }).cycles = 1 ∧
    maybe_update_racing true 60 ⟨100, 101, 101, true, Except.ok (some "S2"), true⟩
      { last_update_ts := 0, running_summary := "", transcript_buffer := ["x"],
        summary_part_id := "running_summary" }
      (maybe_update true 60 ⟨100, 100, 100, true, Except.ok (some "S"), true⟩
        { last_update_ts := 0, running_summary := "", transcript_buffer := ["x"],
          summary_part_id := "running_summary" }).state =
      ⟨(maybe_update true 60 ⟨100, 100, 100, true, Except.ok (some "S"), true⟩
        { last_update_ts := 0, running_summary := "", transcript_buffer := ["x"],
          summary_part_id := "running_summary" }).state, 0, []⟩ :=
  C9_concurrent_single_cycle 60 _ _ _ (by decide) (by decide) (by decide) rfl (by decide)

/-- C10: when no live session is attached, the compaction cycle returns
before snapshotting: the whole manager state — in particular the
transcript buffer and the running summary — is left exactly as it was,
and nothing is sent. -/
theorem C10_no_session_cycle_noop (s : ManagerState) (gen : GenOutcome)
    (sendOk : Bool) :
    update_summary_locked false gen sendOk s = CycleResult.returned s [] := by
  simp [update_summary_locked]

end Proxy
